import Mathlib

/-!
Shallow embedding of `src/fetch_receipts.py` (serenata-de-amor receipt
downloader) and proofs about the claims of its specification.

Modelling conventions:
- Python strings are Lean `String`; Python ints are Lean `Int`/`Nat`.
- The filesystem and the network are passed explicitly: `download_receipt`
  takes the result of `os.path.exists(path)` as a `Bool` and the behaviour
  of `urlretrieve` as a `NetResult`.
- A Python function that can raise an exception is modelled with
  `Except String` (the `error` case is the uncaught exception) or
  `Option` (`none` is the uncaught exception).
- The `while True` loop of `run` is modelled with explicit fuel: the value
  `none` means the loop did not finish within the given fuel, so a result
  that is `none` for every fuel is a non-terminating run.
-/

/-- One row of a dataset CSV as far as the script reads it.  The fields hold
the raw text of the CSV cells; `document_id` is read with dtype `np.str`, so
its pandas value is the raw text unless it is a default NA token. -/
structure CsvRow where
  applicant_id : String
  year : String
  document_id : String
deriving DecidableEq

/-- The default NA tokens of `pandas.read_csv`: a cell holding one of these
parses to null (NaN).  In particular the empty cell is null. -/
def naValues : List String :=
  ["", "#N/A", "#N/A N/A", "#NA", "-1.#IND", "-1.#QNAN", "-NaN", "-nan",
   "1.#IND", "1.#QNAN", "N/A", "NA", "NULL", "NaN", "n/a", "nan", "null"]

/-- `pandas.read_csv` value of a str-dtyped cell: null (`none`) for a default
NA token, otherwise the raw text.  `pd.isnull` on the result is `Option.isNone`. -/
def pdParseStr (s : String) : Option String :=
  if s ∈ naValues then none else some s

/-- The pandas value of `row.document_id` as seen by `Receipts.all`. -/
def rowDocumentId (row : CsvRow) : Option String :=
  pdParseStr row.document_id

/-- The `Receipt` value type of the script: the three identifying fields and
the target directory, as stored by `Receipt.__init__`. -/
structure Receipt where
  applicant_id : String
  year : String
  document_id : String
  target : String
deriving DecidableEq

/-- Python `s.split('/')` on the character list of a string. -/
def splitSlash : List Char → List (List Char)
  | [] => [[]]
  | c :: rest =>
    if c = '/' then [] :: splitSlash rest
    else
      match splitSlash rest with
      | [] => [[c]]
      | g :: gs => (c :: g) :: gs

/-- Python `'/'.join(parts)`. -/
def intercalateSlash : List String → String
  | [] => ""
  | [s] => s
  | s :: rest => s ++ "/" ++ intercalateSlash rest

/-- First character of a string: `s.startswith(c)` for one character `c`. -/
def strHead? (s : String) : Option Char :=
  s.data.head?

/-- Last character of a string: `s.endswith(c)` for one character `c`. -/
def strLast? (s : String) : Option Char :=
  s.data.getLast?

/-- One step of `posixpath.join`: `join(a, b)` for a single extra component.
Python: if `b` starts with the separator, restart at `b`; if `a` is empty or
ends with the separator, concatenate; otherwise insert one separator. -/
def os_path_join2 (a b : String) : String :=
  if strHead? b = some '/' then b
  else if a = "" ∨ strLast? a = some '/' then a ++ b
  else a ++ "/" ++ b

/-- `posixpath.join(a, *ps)`. -/
def os_path_join (a : String) (ps : List String) : String :=
  ps.foldl os_path_join2 a

/-- The number of leading slashes `posixpath.normpath` preserves: two when the
path starts with exactly two slashes, one for any other absolute path. -/
def leadingSlashes (p : String) : Nat :=
  match p.data with
  | '/' :: '/' :: '/' :: _ => 1
  | '/' :: '/' :: _ => 2
  | '/' :: _ => 1
  | _ => 0

/-- The component loop of `posixpath.normpath`: drop empty and `.` components
and resolve `..` lexically. -/
def normComps (slashes : Nat) (comps : List String) : List String :=
  comps.foldl (fun acc comp =>
    if comp = "" ∨ comp = "." then acc
    else if comp ≠ ".." ∨ (slashes = 0 ∧ acc = []) ∨ acc.getLast? = some ".." then
      acc ++ [comp]
    else if acc ≠ [] then acc.dropLast
    else acc) []

/-- `posixpath.normpath`. -/
def os_path_normpath (p : String) : String :=
  if p = "" then "."
  else
    let slashes := leadingSlashes p
    let comps := normComps slashes ((splitSlash p.data).map String.mk)
    let result := String.mk (List.replicate slashes '/') ++ intercalateSlash comps
    if result = "" then "." else result

/-- `posixpath.abspath` with the working directory passed explicitly:
join onto `cwd` unless already absolute, then normalise. -/
def os_path_abspath (cwd p : String) : String :=
  if strHead? p = some '/' then os_path_normpath p
  else os_path_normpath (os_path_join cwd [p])

/-- `Receipt.path`: `os.path.join(os.path.abspath(self.target),
str(self.applicant_id), str(self.year), str(self.document_id) + ".pdf")`.
The working directory `cwd` that `abspath` consults is passed explicitly. -/
def Receipt.path (cwd : String) (r : Receipt) : String :=
  os_path_join (os_path_abspath cwd r.target)
    [r.applicant_id, r.year, r.document_id ++ ".pdf"]

/-- `Receipt.url`: the base string of the script followed by the three fields
as the format recipe interpolates them. -/
def Receipt.url (r : Receipt) : String :=
  let base := "http://www.camara.gov.br/cota-parlamentar/documentos/publ/"
  base ++ r.applicant_id ++ "/" ++ r.year ++ "/" ++ r.document_id ++ ".pdf"

/-- The per-row body of the generator in `Receipts.all`: build a `Receipt`
unless `pd.isnull(row.document_id)`. -/
def receiptOfRow (target : String) (row : CsvRow) : Option Receipt :=
  match pdParseStr row.document_id with
  | none => none
  | some d =>
    some { applicant_id := row.applicant_id, year := row.year,
           document_id := d, target := target }

/-- `Receipts.all`: all rows of all datasets in order, filtered by the
null-document-id check. -/
def Receipts_all (target : String) (datasets : List (List CsvRow)) : List Receipt :=
  (List.flatten datasets).filterMap (receiptOfRow target)

/-- The behaviour of `urlretrieve(url, path)` for one call: it either succeeds
and returns response headers, raises an `HTTPError` (4xx/5xx) whose repr is
the carried string, or raises a transport-level error (a `URLError` that is
not an `HTTPError`, e.g. a connection failure) whose description is the
carried string. -/
inductive NetResult where
  | success (headers : List (String × String))
  | httpError (err : String)
  | transportError (err : String)
deriving DecidableEq

/-- The tuple returned by `download_receipt` (status, receipt, extra). -/
inductive Outcome where
  | ok (receipt : Receipt) (headers : List (String × String))
  | skipped (receipt : Receipt)
  | error (receipt : Receipt) (detail : String)
deriving DecidableEq

/-- `download_receipt`: skip when the local path exists, otherwise fetch.
Only `HTTPError` is caught; a transport-level error escapes as an exception
(`Except.error`).  `fileExists` is `os.path.exists(receipt.path())`; the
`os.makedirs` call has no effect observable in this model. -/
def download_receipt (fileExists : Bool) (net : NetResult) (receipt : Receipt) :
    Except String Outcome :=
  if fileExists = false then
    match net with
    | NetResult.success headers => Except.ok (Outcome.ok receipt headers)
    | NetResult.httpError e => Except.ok (Outcome.error receipt e)
    | NetResult.transportError e => Except.error e
  else Except.ok (Outcome.skipped receipt)

/-- ASCII lower-casing of one character, as `str.lower` does for header names. -/
def asciiLower (c : Char) : Char :=
  if 'A' ≤ c ∧ c ≤ 'Z' then Char.ofNat (c.toNat + 32) else c

/-- ASCII lower-casing of a string. -/
def asciiLowerStr (s : String) : String :=
  String.mk (s.data.map asciiLower)

/-- `header['Content-Length']` on an `http.client.HTTPMessage`: the first
header with a case-insensitively matching name, `None` when absent. -/
def headerGet (headers : List (String × String)) (key : String) : Option String :=
  (headers.find? (fun kv => asciiLowerStr kv.fst == asciiLowerStr key)).map Prod.snd

/-- Value of a digit string. -/
def digitsVal (cs : List Char) : Nat :=
  cs.foldl (fun acc c => 10 * acc + (c.toNat - Char.toNat '0')) 0

/-- Whitespace characters removed by Python `str.strip`. -/
def isPySpace (c : Char) : Bool :=
  c = ' ' ∨ c = '\t' ∨ c = '\n' ∨ c = '\r' ∨ c = '\x0b' ∨ c = '\x0c'

/-- Python `s.strip()`. -/
def pyStrip (s : String) : List Char :=
  ((s.data.dropWhile isPySpace).reverse.dropWhile isPySpace).reverse

/-- Python `int(s)` on a string: strip whitespace, optional sign, digits;
`none` when the text is not an integer literal (a `ValueError`). -/
def pyIntOfString (s : String) : Option Int :=
  match pyStrip s with
  | [] => none
  | '-' :: rest =>
    if rest ≠ [] ∧ rest.all Char.isDigit then some (-(digitsVal rest : Int)) else none
  | '+' :: rest =>
    if rest ≠ [] ∧ rest.all Char.isDigit then some (digitsVal rest : Int) else none
  | cs =>
    if cs.all Char.isDigit then some (digitsVal cs : Int) else none

/-- Python `int(v)` for `v` a header lookup result: `int(None)` raises a
`TypeError` (`none`), otherwise parse the string. -/
def pyInt (v : Option String) : Option Int :=
  match v with
  | none => none
  | some s => pyIntOfString s

/-- The `progress` dictionary of `run`. -/
structure Progress where
  count : Nat
  size : Int
  errors : List String
  skipped : List String
deriving DecidableEq

/-- The initial `progress` dictionary. -/
def initialProgress : Progress :=
  { count := 0, size := 0, errors := [], skipped := [] }

/-- The body of the result-consuming `for` loop in `run` for one outcome:
`ok` bumps the count and adds `int(args['Content-Length'])` to the size
(`none` when that `int` call raises), `skipped` and `error` append the
receipt URL to their list.  The printing of the status line is display-only
and not modelled. -/
def processOutcome (p : Progress) (o : Outcome) : Option Progress :=
  match o with
  | Outcome.ok _ headers =>
    match pyInt (headerGet headers "Content-Length") with
    | some n => some { p with count := p.count + 1, size := p.size + n }
    | none => none
  | Outcome.skipped r => some { p with skipped := p.skipped ++ [r.url] }
  | Outcome.error r _ => some { p with errors := p.errors ++ [r.url] }

/-- Consuming a list of outcomes in order, stopping at the first exception. -/
def consumeOutcomes : Progress → List Outcome → Option Progress
  | p, [] => some p
  | p, o :: rest =>
    match processOutcome p o with
    | none => none
    | some q => consumeOutcomes q rest

/-- One receipt of the `pool.imap(download_receipt, cur_receipts)` loop:
fetch it (the environment `env` gives, per receipt, the file-existence check
and the network behaviour) and consume the outcome.  An exception from either
half propagates. -/
def stepReceipt (env : Receipt → Bool × NetResult) (p : Progress) (r : Receipt) :
    Except String Progress :=
  match download_receipt (env r).fst (env r).snd r with
  | Except.error e => Except.error e
  | Except.ok o =>
    match processOutcome p o with
    | none => Except.error "TypeError: int() argument is not an integer literal"
    | some q => Except.ok q

/-- The whole `for result in pool.imap(...)` loop over one batch of receipts. -/
def processReceipts (env : Receipt → Bool × NetResult) :
    Progress → List Receipt → Except String Progress
  | p, [] => Except.ok p
  | p, r :: rest =>
    match stepReceipt env p r with
    | Except.error e => Except.error e
    | Except.ok q => processReceipts env q rest

/-- The `while True` loop of `run`, with fuel.  Each iteration takes the
whole remaining stream when `limit` is falsy and otherwise
`islice(receipts, limit - progress.count)`, runs the imap loop on it, and
breaks when `not limit or progress.count >= limit`.  `none` means the fuel
ran out before the loop finished. -/
def runLoop (env : Receipt → Bool × NetResult) (limit : Nat) :
    Nat → Progress → List Receipt → Option (Except String Progress)
  | 0, _, _ => none
  | fuel + 1, p, remaining =>
    let n := if limit = 0 then remaining.length else limit - p.count
    match processReceipts env p (remaining.take n) with
    | Except.error e => some (Except.error e)
    | Except.ok q =>
      if limit = 0 ∨ limit ≤ q.count then some (Except.ok q)
      else runLoop env limit fuel q (remaining.drop n)

/-- The filesystem facts `run` consults about its `target` argument. -/
structure FileSystem where
  pathExists : String → Bool
  isDir : String → Bool

/-- `run(target, limit)`: validate the target, then run the loop on the
stream of receipts (`Receipts(target).all()` is passed in as `stream`).
`limit = 0` models both `limit=None` and `limit=0`, the two falsy values. -/
def run (fs : FileSystem) (env : Receipt → Bool × NetResult) (fuel : Nat)
    (target : String) (limit : Nat) (stream : List Receipt) :
    Option (Except String Progress) :=
  if fs.pathExists target = false then
    some (Except.error ("Directory " ++ target ++ " does not exist"))
  else if fs.isDir target = false then
    some (Except.error (target ++ " is a file, not a directory"))
  else runLoop env limit fuel initialProgress stream

/-- Spec-side remote URL template, written as the spec states it:
`http://www.camara.gov.br/cota-parlamentar/documentos/publ/` then
`applicantId/year/documentId.pdf`. -/
def specRemoteUrl (a y d : String) : String :=
  "http://www.camara.gov.br/cota-parlamentar/documentos/publ/" ++ a ++ "/" ++ y ++ "/" ++ d ++ ".pdf"

/-- Spec-side local path formula: `target/applicantId/year/documentId + ".pdf"`. -/
def specLocalPath (target a y d : String) : String :=
  target ++ "/" ++ a ++ "/" ++ y ++ "/" ++ d ++ ".pdf"

/-- A concrete receipt used in witnesses and counterexamples. -/
def rcptA : Receipt :=
  { applicant_id := "10", year := "2015", document_id := "99", target := "/data" }

/-- Environment in which every fetch hits a transport-level error. -/
def envTransport : Receipt → Bool × NetResult :=
  fun _ => (false, NetResult.transportError "urlopen error connection refused")

/-- Environment in which every local file already exists. -/
def envAllExist : Receipt → Bool × NetResult :=
  fun _ => (true, NetResult.success [])

/-- Environment in which every fetch succeeds with a 10-byte body. -/
def envAllOk : Receipt → Bool × NetResult :=
  fun _ => (false, NetResult.success [("Content-Length", "10")])

/-- A filesystem on which every path is an existing directory. -/
def fsOk : FileSystem :=
  { pathExists := fun _ => true, isDir := fun _ => true }

/-- A filesystem on which no path exists. -/
def fsMissing : FileSystem :=
  { pathExists := fun _ => false, isDir := fun _ => false }


/-- Claim C4: for every descriptor, `remoteUrl` is exactly the template
`http://www.camara.gov.br/cota-parlamentar/documentos/publ/{applicantId}/{year}/{documentId}.pdf`,
and it is a pure function of the three identifying fields alone: the stored
target directory does not influence it. -/
theorem C4_remote_url_format : ∀ (a y d t t' : String),
    Receipt.url { applicant_id := a, year := y, document_id := d, target := t }
      = specRemoteUrl a y d
    ∧ Receipt.url { applicant_id := a, year := y, document_id := d, target := t }
      = Receipt.url { applicant_id := a, year := y, document_id := d, target := t' } := by
  intro a y d t t'
  exact ⟨rfl, rfl⟩

/-- Claim C3: a row read from the datasets yields a descriptor in
`Receipts.all` exactly when its pandas document identifier is neither null
nor the empty string.  (With the default pandas NA handling an empty CSV cell
parses to null, so the null check of the code also excludes empty values.) -/
theorem C3_null_document_id_filter : ∀ (target : String) (row : CsvRow),
    (receiptOfRow target row).isSome
      ↔ (rowDocumentId row ≠ none ∧ rowDocumentId row ≠ some "") := by
  intro target row
  unfold receiptOfRow rowDocumentId pdParseStr
  by_cases h : row.document_id ∈ naValues
  · simp [h]
  · have hne : row.document_id ≠ "" := by
      intro he
      exact h (by rw [he]; simp [naValues])
    simp [h, hne]

/-- Claim C7: a dispatched descriptor whose local path already exists is
reported `Skipped` and the network behaviour is irrelevant to the result
(no network access), and consuming a `Skipped` outcome appends the remote
URL, not the local path, to the skipped list. -/
theorem C7_skip_existing : ∀ (net : NetResult) (r : Receipt) (p : Progress),
    download_receipt true net r = Except.ok (Outcome.skipped r)
    ∧ processOutcome p (Outcome.skipped r)
        = some { p with skipped := p.skipped ++ [r.url] } := by
  intro net r p
  refine ⟨?_, rfl⟩
  cases net with
  | success headers => rfl
  | httpError e => rfl
  | transportError e => rfl

/-- Claim C1, counterexample: a transport-level (non-HTTPError) failure is
not swallowed into the outcome stream; `download_receipt` lets it escape as
an exception and the run loop aborts with it. -/
theorem C1_counterexample :
    download_receipt false (NetResult.transportError "urlopen error connection refused") rcptA
      = Except.error "urlopen error connection refused"
    ∧ runLoop envTransport 0 1 initialProgress [rcptA]
      = some (Except.error "urlopen error connection refused") := by
  exact ⟨rfl, rfl⟩

/-- Claim C1 as amended: failures raised as `HTTPError` (the 4xx/5xx
responses) are returned as `Error(descriptor, errorDescription)` outcomes in
the stream and their consumption never aborts the run; transport-level
errors that are not `HTTPError` are not caught and abort the run. -/
theorem C1_http_error_swallowed : ∀ (e : String) (r : Receipt) (p : Progress),
    download_receipt false (NetResult.httpError e) r = Except.ok (Outcome.error r e)
    ∧ processOutcome p (Outcome.error r e)
        = some { p with errors := p.errors ++ [r.url] } := by
  intro e r p
  exact ⟨rfl, rfl⟩

/-- Consuming one outcome updates exactly one of the three tallies: the
count-plus-list-lengths total grows by exactly one. -/
theorem processOutcome_sum {p q : Progress} {o : Outcome}
    (h : processOutcome p o = some q) :
    q.count + q.skipped.length + q.errors.length
      = p.count + p.skipped.length + p.errors.length + 1 := by
  cases o with
  | ok r headers =>
    dsimp only [processOutcome] at h
    cases hp : pyInt (headerGet headers "Content-Length") with
    | none => rw [hp] at h; exact absurd h (by simp)
    | some n =>
      rw [hp] at h
      have := Option.some.inj h
      subst this
      simp
      omega
  | skipped r =>
    dsimp only [processOutcome] at h
    have := Option.some.inj h
    subst this
    simp
    omega
  | error r d =>
    dsimp only [processOutcome] at h
    have := Option.some.inj h
    subst this
    simp
    omega

/-- Claim C5: at every point of outcome consumption, the success count plus
the lengths of the skipped and error lists equals the number of outcomes
consumed so far, starting from any progress state: no outcome is lost or
double-counted. -/
theorem C5_accounting_invariant : ∀ (outs : List Outcome) (p q : Progress),
    consumeOutcomes p outs = some q →
    q.count + q.skipped.length + q.errors.length
      = p.count + p.skipped.length + p.errors.length + outs.length := by
  intro outs
  induction outs with
  | nil =>
    intro p q h
    unfold consumeOutcomes at h
    have := Option.some.inj h
    subst this
    simp
  | cons o rest ih =>
    intro p q h
    unfold consumeOutcomes at h
    cases ho : processOutcome p o with
    | none => rw [ho] at h; exact absurd h (by simp)
    | some p1 =>
      rw [ho] at h
      have h1 := processOutcome_sum ho
      have h2 := ih p1 q h
      simp only [List.length_cons]
      omega

/-- Claim C5, witness: consuming one outcome of each kind from the initial
state gives a total of three. -/
theorem C5_witness :
    consumeOutcomes initialProgress
        [Outcome.skipped rcptA, Outcome.error rcptA "HTTPError 404",
         Outcome.ok rcptA [("Content-Length", "10")]]
      = some { count := 1, size := 10, errors := [rcptA.url], skipped := [rcptA.url] }
    ∧ 1 + [rcptA.url].length + [rcptA.url].length = 0 + 0 + 0 + 3 := by
  constructor
  · rfl
  · exact C5_accounting_invariant
      [Outcome.skipped rcptA, Outcome.error rcptA "HTTPError 404",
       Outcome.ok rcptA [("Content-Length", "10")]]
      initialProgress
      { count := 1, size := 10, errors := [rcptA.url], skipped := [rcptA.url] }
      (by rfl)

/-- Claim C9: consuming `Ok(descriptor, headers)` bumps the success count by
exactly one and adds the parsed `Content-Length` to the byte total, leaving
the skipped and error lists unchanged; a missing or unparsable
`Content-Length` is fatal (the `int(...)` call raises and the consumption
aborts, modelled as `none`), which is the documented fatal choice. -/
theorem C9_ok_consumption : ∀ (p : Progress) (r : Receipt) (headers : List (String × String)),
    (∀ n : Int, pyInt (headerGet headers "Content-Length") = some n →
      processOutcome p (Outcome.ok r headers)
        = some { count := p.count + 1, size := p.size + n,
                 errors := p.errors, skipped := p.skipped })
    ∧ (pyInt (headerGet headers "Content-Length") = none →
      processOutcome p (Outcome.ok r headers) = none) := by
  intro p r headers
  constructor
  · intro n hn
    dsimp only [processOutcome]
    rw [hn]
  · intro hn
    dsimp only [processOutcome]
    rw [hn]

/-- Claim C9, witness: a present `Content-Length: 10` header adds 10 bytes
and one success; an absent header is fatal. -/
theorem C9_witness :
    pyInt (headerGet [("Content-Length", "10")] "Content-Length") = some 10
    ∧ processOutcome initialProgress (Outcome.ok rcptA [("Content-Length", "10")])
        = some { count := 1, size := 10, errors := [], skipped := [] }
    ∧ pyInt (headerGet [] "Content-Length") = none
    ∧ processOutcome initialProgress (Outcome.ok rcptA []) = none := by
  refine ⟨rfl, ?_, rfl, ?_⟩
  · exact (C9_ok_consumption initialProgress rcptA [("Content-Length", "10")]).1 10 rfl
  · exact (C9_ok_consumption initialProgress rcptA []).2 rfl

/-- Claim C6: when the target does not exist, or exists but is not a
directory, `run` returns a configuration error at once; the result does not
depend on the environment, the fuel or the record stream, so no dataset
record is read and no descriptor is dispatched. -/
theorem C6_target_validation : ∀ (fs : FileSystem) (target : String),
    (fs.pathExists target = false ∨ fs.isDir target = false) →
    ∀ (env env' : Receipt → Bool × NetResult) (fuel fuel' limit : Nat)
      (stream stream' : List Receipt),
      (∃ msg, run fs env fuel target limit stream = some (Except.error msg))
      ∧ run fs env fuel target limit stream = run fs env' fuel' target limit stream' := by
  intro fs target h env env' fuel fuel' limit stream stream'
  unfold run
  cases hpe : fs.pathExists target with
  | false => simp [hpe]
  | true =>
    have hd : fs.isDir target = false := by
      rcases h with h1 | h2
      · rw [hpe] at h1; cases h1
      · exact h2
    simp [hpe, hd]

/-- Claim C6, witness: a missing target aborts the run with an error. -/
theorem C6_witness :
    (fsMissing.pathExists "/data" = false ∨ fsMissing.isDir "/data" = false)
    ∧ (∃ msg, run fsMissing envTransport 1 "/data" 0 [rcptA] = some (Except.error msg)) := by
  refine ⟨Or.inl rfl, ?_⟩
  exact (C6_target_validation fsMissing "/data" (Or.inl rfl) envTransport envTransport
    1 1 0 [rcptA] [rcptA]).1

/-- When the stream is exhausted while a non-zero limit is unmet, every
iteration of the loop processes the empty batch, changes nothing, fails the
exit test and loops again: no amount of fuel finishes the loop. -/
theorem runLoop_exhausted_stuck (env : Receipt → Bool × NetResult) (limit : Nat)
    (hl : limit ≠ 0) :
    ∀ (fuel : Nat) (p : Progress), p.count < limit →
      runLoop env limit fuel p [] = none := by
  intro fuel
  induction fuel with
  | zero => intro p hp; rfl
  | succ n ih =>
    intro p hp
    have hnot : ¬ (limit = 0 ∨ limit ≤ p.count) := by
      rintro (h1 | h2)
      · exact hl h1
      · exact absurd hp (Nat.not_lt.mpr h2)
    calc runLoop env limit (n + 1) p []
        = runLoop env limit n p [] := by
          dsimp only [runLoop]
          simp only [List.take_nil, List.drop_nil, processReceipts]
          rw [if_neg hnot]
      _ = none := ih p hp

/-- Claim C2 fails on the code: with `limit = 1` and a stream of one receipt
whose file already exists, the receipt is skipped, the stream is exhausted
with zero successes, and the loop re-checks `not limit or count >= limit`
forever: `run` never terminates, for any fuel. -/
theorem C2_exhausted_stream_loops_forever :
    ∀ fuel : Nat, run fsOk envAllExist fuel "/data" 1 [rcptA] = none := by
  intro fuel
  have hrun : run fsOk envAllExist fuel "/data" 1 [rcptA]
      = runLoop envAllExist 1 fuel initialProgress [rcptA] := rfl
  rw [hrun]
  cases fuel with
  | zero => rfl
  | succ n =>
    have hstep : runLoop envAllExist 1 (n + 1) initialProgress [rcptA]
        = runLoop envAllExist 1 n
            { count := 0, size := 0, errors := [], skipped := [rcptA.url] } [] := rfl
    rw [hstep]
    exact runLoop_exhausted_stuck envAllExist 1 (by decide) n _ (by decide)

/-- Consuming one outcome raises the success count by at most one. -/
theorem processOutcome_count_le {p q : Progress} {o : Outcome}
    (h : processOutcome p o = some q) : q.count ≤ p.count + 1 := by
  cases o with
  | ok r headers =>
    dsimp only [processOutcome] at h
    cases hp : pyInt (headerGet headers "Content-Length") with
    | none => rw [hp] at h; exact absurd h (by simp)
    | some n =>
      rw [hp] at h
      have := Option.some.inj h
      subst this
      exact Nat.le_refl _
  | skipped r =>
    dsimp only [processOutcome] at h
    have := Option.some.inj h
    subst this
    exact Nat.le_succ _
  | error r d =>
    dsimp only [processOutcome] at h
    have := Option.some.inj h
    subst this
    exact Nat.le_succ _

/-- One step of the imap loop raises the success count by at most one. -/
theorem stepReceipt_count_le {env : Receipt → Bool × NetResult} {p q : Progress}
    {r : Receipt} (h : stepReceipt env p r = Except.ok q) : q.count ≤ p.count + 1 := by
  unfold stepReceipt at h
  cases hdl : download_receipt (env r).fst (env r).snd r with
  | error e => rw [hdl] at h; exact absurd h (by simp)
  | ok o =>
    rw [hdl] at h
    replace h : (match processOutcome p o with
        | none =>
          (Except.error "TypeError: int() argument is not an integer literal" :
            Except String Progress)
        | some q => Except.ok q) = Except.ok q := h
    cases hpo : processOutcome p o with
    | none => rw [hpo] at h; exact absurd h (by simp)
    | some q1 =>
      rw [hpo] at h
      have := Except.ok.inj h
      subst this
      exact processOutcome_count_le hpo

/-- Over a batch, the success count grows by at most the batch length. -/
theorem processReceipts_count_le (env : Receipt → Bool × NetResult) :
    ∀ (rs : List Receipt) (p q : Progress),
      processReceipts env p rs = Except.ok q → q.count ≤ p.count + rs.length := by
  intro rs
  induction rs with
  | nil =>
    intro p q h
    unfold processReceipts at h
    have := Except.ok.inj h
    subst this
    simp
  | cons r rest ih =>
    intro p q h
    unfold processReceipts at h
    cases hs : stepReceipt env p r with
    | error e => rw [hs] at h; exact absurd h (by simp)
    | ok p1 =>
      rw [hs] at h
      have h1 := stepReceipt_count_le hs
      have h2 := ih p1 q h
      simp only [List.length_cons]
      omega

/-- Claim C10: with a non-zero limit, every batch is sliced to
`limit - count`, so the success count never exceeds the limit: not within a
batch, and not at the end of the run. -/
theorem C10_success_count_capped : ∀ (env : Receipt → Bool × NetResult) (limit : Nat),
    limit ≠ 0 →
    (∀ (p : Progress) (rs : List Receipt) (q : Progress),
        p.count + rs.length ≤ limit →
        processReceipts env p rs = Except.ok q → q.count ≤ limit)
    ∧ (∀ (fuel : Nat) (p : Progress) (remaining : List Receipt) (q : Progress),
        p.count ≤ limit →
        runLoop env limit fuel p remaining = some (Except.ok q) → q.count ≤ limit) := by
  intro env limit hl
  constructor
  · intro p rs q hlen h
    exact Nat.le_trans (processReceipts_count_le env rs p q h) hlen
  · intro fuel
    induction fuel with
    | zero =>
      intro p remaining q hp h
      exact absurd h (by simp [runLoop])
    | succ n ih =>
      intro p remaining q hp h
      dsimp only [runLoop] at h
      rw [if_neg hl] at h
      cases hpr : processReceipts env p (remaining.take (limit - p.count)) with
      | error e =>
        rw [hpr] at h
        exact absurd (Option.some.inj h) (by simp)
      | ok q1 =>
        rw [hpr] at h
        replace h : (if limit = 0 ∨ limit ≤ q1.count then some (Except.ok q1)
            else runLoop env limit n q1 (List.drop (limit - p.count) remaining))
            = some (Except.ok q) := h
        have hq1 : q1.count ≤ limit := by
          have hle := processReceipts_count_le env _ p q1 hpr
          have htake : (remaining.take (limit - p.count)).length ≤ limit - p.count := by
            rw [List.length_take]
            exact Nat.min_le_left _ _
          omega
        by_cases hc : limit = 0 ∨ limit ≤ q1.count
        · rw [if_pos hc] at h
          have := Except.ok.inj (Option.some.inj h)
          subst this
          exact hq1
        · rw [if_neg hc] at h
          exact ih q1 (remaining.drop (limit - p.count)) q hq1 h

/-- Claim C10, witness: one successful fetch against limit 1 ends the run
with the count at the limit, not above it. -/
theorem C10_witness :
    (1 : Nat) ≠ 0
    ∧ initialProgress.count ≤ 1
    ∧ runLoop envAllOk 1 1 initialProgress [rcptA]
        = some (Except.ok { count := 1, size := 10, errors := [], skipped := [] })
    ∧ Progress.count { count := 1, size := 10, errors := [], skipped := [] } ≤ 1 := by
  refine ⟨by decide, by decide, rfl, ?_⟩
  exact (C10_success_count_capped envAllOk 1 (by decide)).2 1 initialProgress [rcptA]
    { count := 1, size := 10, errors := [], skipped := [] } (by decide) rfl

/-- A non-empty string has a non-empty character list. -/
theorem strData_ne_nil {s : String} (h : s ≠ "") : s.data ≠ [] := by
  intro hd
  exact h (String.ext hd)

/-- Appending a non-empty string gives a non-empty string. -/
theorem strAppend_ne_empty (a b : String) (hb : b ≠ "") : a ++ b ≠ "" := by
  intro h
  have hdata : (a ++ b).data = [] := by rw [h]
  rw [String.data_append] at hdata
  exact strData_ne_nil hb (List.append_eq_nil.mp hdata).2

/-- The last character of an append is the last character of its non-empty
right part. -/
theorem strLast?_append (a b : String) (hb : b ≠ "") :
    strLast? (a ++ b) = strLast? b := by
  unfold strLast?
  rw [String.data_append]
  exact List.getLast?_append_of_ne_nil _ (strData_ne_nil hb)

/-- `posixpath.join` inserts exactly one separator when the left part is
non-empty without a trailing slash and the right part has no leading slash. -/
theorem os_path_join2_sep (a b : String) (ha : a ≠ "") (ha2 : strLast? a ≠ some '/')
    (hb : strHead? b ≠ some '/') : os_path_join2 a b = a ++ "/" ++ b := by
  have hcond : ¬ (a = "" ∨ strLast? a = some '/') := by
    rintro (h | h)
    · exact ha h
    · exact ha2 h
  unfold os_path_join2
  rw [if_neg hb, if_neg hcond]

/-- Suffixing `.pdf` cannot create a leading slash. -/
theorem strHead?_append_pdf (d : String) (hd : strHead? d ≠ some '/') :
    strHead? (d ++ ".pdf") ≠ some '/' := by
  unfold strHead? at hd ⊢
  rw [String.data_append]
  cases hdd : d.data with
  | nil => decide
  | cons c cs =>
    rw [hdd] at hd
    exact hd

/-- Claim C8, counterexample: with working directory `/home` and the relative
target `out`, the computed local path is not the claimed
`target/applicantId/year/documentId.pdf`, because the code resolves the
target with `os.path.abspath` first. -/
theorem C8_counterexample :
    ¬ (Receipt.path "/home" { applicant_id := "1", year := "2015", document_id := "42", target := "out" } = "out/1/2015/42.pdf")
    ∧ Receipt.path "/home" { applicant_id := "1", year := "2015", document_id := "42", target := "out" } = "/home/out/1/2015/42.pdf" := by
  exact ⟨by decide, by decide⟩

/-- Claim C8 as amended: the local path is
`abspath(target)/applicantId/year/documentId.pdf`; when the target is
already an absolute normalised path (so `abspath` leaves it unchanged) and
the component strings are non-empty without leading or trailing slashes, it
is exactly `target/applicantId/year/documentId + ".pdf"` as the claim
states. -/
theorem C8_amended_local_path (cwd target a y d : String)
    (habs : os_path_abspath cwd target = target)
    (ht0 : target ≠ "") (ht2 : strLast? target ≠ some '/')
    (ha1 : strHead? a ≠ some '/') (ha0 : a ≠ "") (ha2 : strLast? a ≠ some '/')
    (hy1 : strHead? y ≠ some '/') (hy0 : y ≠ "") (hy2 : strLast? y ≠ some '/')
    (hd1 : strHead? d ≠ some '/') :
    Receipt.path cwd { applicant_id := a, year := y, document_id := d, target := target }
      = specLocalPath target a y d := by
  unfold Receipt.path os_path_join specLocalPath
  dsimp only [List.foldl]
  rw [habs]
  rw [os_path_join2_sep target a ht0 ht2 ha1]
  rw [os_path_join2_sep _ y (strAppend_ne_empty _ a ha0)
    (by rw [strLast?_append _ a ha0]; exact ha2) hy1]
  rw [os_path_join2_sep _ (d ++ ".pdf") (strAppend_ne_empty _ y hy0)
    (by rw [strLast?_append _ y hy0]; exact hy2) (strHead?_append_pdf d hd1)]
  apply String.ext
  simp only [String.data_append, List.append_assoc]

/-- Claim C8, witness: for the absolute normalised target `/data` the local
path is exactly the spec formula. -/
theorem C8_witness :
    os_path_abspath "/home" "/data" = "/data"
    ∧ Receipt.path "/home" { applicant_id := "1", year := "2015", document_id := "42", target := "/data" } = specLocalPath "/data" "1" "2015" "42" := by
  refine ⟨by decide, ?_⟩
  exact C8_amended_local_path "/home" "/data" "1" "2015" "42" (by decide) (by decide)
    (by decide) (by decide) (by decide) (by decide) (by decide) (by decide) (by decide)
    (by decide)
